import Mathlib

/-!
Shallow embedding of the anomaly-detection core of `streamlit_app.py`
(the `detect_anomalies` pipeline, the summary statistics computed from its
output, and the error behaviour of both on degenerate batches).

Modelling conventions:
* Python floats are modelled as exact rationals (`ℚ`); a value that the
  source computes as a non-finite float (NaN from `0/0` or a pandas
  statistic over too few values, or ±inf from division by zero) is
  modelled as `none` of an `Option`.
* pandas `Series.std()` uses `ddof = 1`: it is NaN on fewer than two
  values.  The source only ever compares a standard deviation against
  other quantities or divides by it, so the embedding carries the sample
  *variance* instead of the standard deviation (the map `v ↦ √v` is a
  monotone bijection on `[0, ∞)`, so this encoding is lossless: a std is
  `0` iff its variance is `0`, and `a < √v` iff `a < 0 ∨ a² < v` for the
  comparisons used here).  Fields encoded this way carry a `_sq` or
  `_ss` (signed square) suffix.
* The isolation-forest library call (`sklearn.ensemble.IsolationForest`
  with `random_state=42`) is a third-party dependency; with a fixed seed
  it is a pure function of its inputs, so it is modelled as an explicit
  function parameter of `analyze`.  `model.fit` raises `ValueError` when
  the feature matrix contains a non-finite entry; `analyze` models that
  error path explicitly.
-/

set_option linter.unusedVariables false

namespace LogMonitor

/-- A successfully parsed timestamp, reduced to the components the pipeline
reads from it (`dt.hour`, `dt.minute`, `dt.dayofweek`). -/
structure Ts where
  hour : ℕ
  minute : ℕ
  dow : ℕ
deriving DecidableEq, Repr

/-- One raw log row.  `timestamp` is the outcome of the
`pd.to_datetime(..., errors="coerce")` coercion at lines 44-47 of the
source: `none` models NaT (an absent or unparseable timestamp); the
coercion itself never raises. -/
structure Event where
  timestamp : Option Ts
  response_time : ℚ
  status_code : ℤ
  user : String
deriving DecidableEq, Repr

/-- The `response_time` column of a batch. -/
def respTimes (b : List Event) : List ℚ := b.map (fun e => e.response_time)

/-- pandas `Series.mean()` as a total function (only ever used on
non-empty lists in the pipeline; on `[]` it returns the junk value 0). -/
def meanV (l : List ℚ) : ℚ := l.sum / (l.length : ℚ)

/-- pandas `Series.var()` with `ddof = 1` (the square of `Series.std()`):
`none` models the NaN returned on fewer than two values. -/
def sampleVar (l : List ℚ) : Option ℚ :=
  if l.length ≤ 1 then none
  else some ((l.map (fun x => (x - meanV l) ^ 2)).sum / ((l.length : ℚ) - 1))

/-- Line 49 of the source: `df_features["timestamp"].notna().sum() > 0`.
The whole batch is switched between real and synthetic time features by
this single flag. -/
def hasValidTimestamp (b : List Event) : Bool := b.any (fun e => e.timestamp.isSome)

/-- The `hour` column for the row at position `i` (lines 54 and 58):
`dt.hour` when the batch has at least one valid timestamp (NaN, i.e.
`none`, on a NaT row), else the synthetic `index % 24`. -/
def rowHour (b : List Event) (i : ℕ) (e : Event) : Option ℚ :=
  if hasValidTimestamp b then e.timestamp.map (fun t => (t.hour : ℚ))
  else some ((i % 24 : ℕ) : ℚ)

/-- The `day_of_week` column (lines 55 and 59). -/
def rowDayOfWeek (b : List Event) (i : ℕ) (e : Event) : Option ℚ :=
  if hasValidTimestamp b then e.timestamp.map (fun t => (t.dow : ℚ))
  else some ((i / 24 % 7 : ℕ) : ℚ)

/-- The `minute_of_day` column (lines 56 and 60): `hour * 60 + minute`
from the timestamp, else the synthetic `index % 1440`. -/
def rowMinuteOfDay (b : List Event) (i : ℕ) (e : Event) : Option ℚ :=
  if hasValidTimestamp b then e.timestamp.map (fun t => ((t.hour * 60 + t.minute : ℕ) : ℚ))
  else some ((i % 1440 : ℕ) : ℚ)

/-- The rows of the batch belonging to user `u` (the groups of
`df_features.groupby('user')`, lines 63-69). -/
def userRows (b : List Event) (u : String) : List Event :=
  b.filter (fun e => e.user = u)

/-- `user_request_count`: the `count` aggregate of line 63. -/
def user_request_count (b : List Event) (u : String) : ℕ := (userRows b u).length

/-- `user_avg_response`: the `mean` aggregate of line 63. -/
def user_avg_response (b : List Event) (u : String) : ℚ :=
  meanV (respTimes (userRows b u))

/-- The square of the `user_std_response` column after the
`fillna(0)` of line 78: the `std` aggregate (ddof = 1) is NaN for a user
with a single event and is replaced by 0.  Encoded by the variance
(`std = √ of this`; the fill commutes with squaring since `√0 = 0`). -/
def user_std_response_sq (b : List Event) (u : String) : ℚ :=
  (sampleVar (respTimes (userRows b u))).getD 0

/-- `user_avg_status`: mean status code per user (line 64). -/
def user_avg_status (b : List Event) (u : String) : ℚ :=
  meanV ((userRows b u).map (fun e => (e.status_code : ℚ)))

/-- `user_error_rate`: share of the user's rows with status ≥ 400
(line 65). -/
def user_error_rate (b : List Event) (u : String) : ℚ :=
  (((userRows b u).filter (fun e => decide (400 ≤ e.status_code))).length : ℚ)
    / ((userRows b u).length : ℚ)

/-- `response_deviation` (line 75). -/
def response_deviation (b : List Event) (e : Event) : ℚ :=
  |e.response_time - user_avg_response b e.user|

/-- The square of the `response_zscore` column (lines 79-82):
`|x − user_avg| / user_std` when `user_std > 0`, else 0.  The source's
z-score is non-negative, so its square is a lossless encoding; the guard
`user_std > 0` is equivalently `user_var > 0`. -/
def response_zscore_sq (b : List Event) (e : Event) : ℚ :=
  if 0 < user_std_response_sq b e.user then
    (response_deviation b e) ^ 2 / user_std_response_sq b e.user
  else 0

/-- `global_mean_response` (line 85). -/
def global_mean_response (b : List Event) : ℚ := meanV (respTimes b)

/-- The square of `global_std_response` (line 86); `none` is the NaN that
pandas `std` returns on fewer than two rows. -/
def global_var_response (b : List Event) : Option ℚ := sampleVar (respTimes b)

/-- The `global_response_zscore` column (line 87),
`(x − mean) / std`, encoded sign-losslessly by its signed square
`z·|z| = (x − mean)·|x − mean| / var`.  `none` models a non-finite float:
std NaN (fewer than 2 rows) gives NaN, and std = 0 gives `0.0/0.0 = NaN`
for every batch row (a zero-variance batch forces `x = mean`; a
hypothetical off-batch `x` would give ±inf, equally non-finite). -/
def global_response_zscore_ss (b : List Event) (e : Event) : Option ℚ :=
  match global_var_response b with
  | none => none
  | some v =>
    if v = 0 then none
    else some ((e.response_time - global_mean_response b)
      * |e.response_time - global_mean_response b| / v)

/-- List of batch rows paired with their positional index (the pandas
row index used as a grouping/merge key). -/
def withIdx (k : ℕ) : List Event → List (ℕ × Event)
  | [] => []
  | e :: t => (k, e) :: withIdx (k + 1) t

/-- The `requests_in_hour` column (lines 90-96): the size of the row's
own `(user, hour)` group.  A row whose `hour` is NaN belongs to no group
(`groupby` drops NaN keys), gets no match in the left merge, and the
`fillna(0)` of line 96 turns the resulting NaN into 0. -/
def requests_in_hour (b : List Event) (i : ℕ) (e : Event) : ℚ :=
  match rowHour b i e with
  | none => 0
  | some h =>
    (((withIdx 0 b).filter
      (fun p => decide (p.2.user = e.user ∧ rowHour b p.1 p.2 = some h))).length : ℚ)

/-- `is_error` (line 100). -/
def is_error (e : Event) : ℚ := if 400 ≤ e.status_code then 1 else 0

/-- `user_error_deviation` (line 101). -/
def user_error_deviation (b : List Event) (e : Event) : ℚ :=
  |is_error e - user_error_rate b e.user|

/-- The fixed off-hours set of line 105. -/
def offHours : List ℚ := [22, 23, 0, 1, 2, 3, 4, 5]

/-- `is_off_hours` (line 105): `hour.isin([...])`; a NaN hour is in no
set, giving 0. -/
def is_off_hours (b : List Event) (i : ℕ) (e : Event) : ℚ :=
  match rowHour b i e with
  | none => 0
  | some h => if h ∈ offHours then 1 else 0

/-- The `slow_response` column (line 111):
`response_time > global_mean + 2·global_std`, sqrt-free form
(`x > m + 2√v  ↔  x > m ∧ (x−m)² > 4v` since `2√v ≥ 0`); when the std is
NaN (fewer than 2 rows) the comparison with NaN is false, giving 0. -/
def slow_response (b : List Event) (e : Event) : ℚ :=
  match global_var_response b with
  | none => 0
  | some v =>
    if global_mean_response b < e.response_time ∧
        4 * v < (e.response_time - global_mean_response b) ^ 2 then 1
    else 0

/-- One row of `df_features` restricted to the columns the claims and the
model consume: the 16 `feature_cols` of lines 113-130 plus the
`day_of_week` and (filled) `user_std_response` columns that the pipeline
also derives.  Columns that can hold a non-finite float are `Option ℚ`. -/
structure DerivedRow where
  response_time : ℚ
  status_code : ℚ
  hour : Option ℚ
  day_of_week : Option ℚ
  minute_of_day : Option ℚ
  user_request_count : ℚ
  user_avg_response : ℚ
  user_std_response_sq : ℚ
  user_avg_status : ℚ
  user_error_rate : ℚ
  response_deviation : ℚ
  response_zscore_sq : ℚ
  global_response_zscore_ss : Option ℚ
  requests_in_hour : ℚ
  is_error : ℚ
  user_error_deviation : ℚ
  is_off_hours : ℚ
  slow_response : ℚ
deriving DecidableEq, Repr

/-- The derived-feature row for the event at position `i` of the batch. -/
def deriveRow (b : List Event) (i : ℕ) (e : Event) : DerivedRow where
  response_time := e.response_time
  status_code := (e.status_code : ℚ)
  hour := rowHour b i e
  day_of_week := rowDayOfWeek b i e
  minute_of_day := rowMinuteOfDay b i e
  user_request_count := (user_request_count b e.user : ℚ)
  user_avg_response := user_avg_response b e.user
  user_std_response_sq := user_std_response_sq b e.user
  user_avg_status := user_avg_status b e.user
  user_error_rate := user_error_rate b e.user
  response_deviation := response_deviation b e
  response_zscore_sq := response_zscore_sq b e
  global_response_zscore_ss := global_response_zscore_ss b e
  requests_in_hour := requests_in_hour b i e
  is_error := is_error e
  user_error_deviation := user_error_deviation b e
  is_off_hours := is_off_hours b i e
  slow_response := slow_response b e

/-- The feature-derivation stage of `detect_anomalies` (lines 36-111):
one derived row per input row, same order. -/
def derive (b : List Event) : List DerivedRow :=
  (withIdx 0 b).map (fun p => deriveRow b p.1 p.2)

/-- Whether a feature row holds a non-finite entry among the 16 model
columns; of those, exactly `global_response_zscore`, `hour` and
`minute_of_day` can be non-finite. -/
def featureHasNaN (r : DerivedRow) : Bool :=
  r.global_response_zscore_ss.isNone || r.hour.isNone || r.minute_of_day.isNone

/-- Predicate of line 135: severe error status. -/
def sevP (e : Event) : Bool := decide (500 ≤ e.status_code)

/-- Predicate of line 137: `slow_response == 1`. -/
def slowP (b : List Event) (e : Event) : Bool := decide (slow_response b e = 1)

/-- Predicate of line 139: `response_zscore > 3`, equivalently
`response_zscore² > 9` (the z-score is non-negative). -/
def zP (b : List Event) (e : Event) : Bool := decide (9 < response_zscore_sq b e)

/-- Lines 135-139: the contamination numerator is the SUM of the three
per-condition counts (a row can be counted up to three times). -/
def estimated_anomalies (b : List Event) : ℕ :=
  b.countP sevP + b.countP (slowP b) + b.countP (zP b)

/-- Line 141: `max(0.05, min(0.5, estimated_anomalies / len(df)))`. -/
def estimated_contamination (b : List Event) : ℚ :=
  max 0.05 (min 0.5 ((estimated_anomalies b : ℚ) / (b.length : ℚ)))

/-- Number of conditions of lines 135-139 that a single row satisfies. -/
def condCount (b : List Event) (e : Event) : ℕ :=
  (if sevP e then 1 else 0) + (if slowP b e then 1 else 0) + (if zP b e then 1 else 0)

/-- Stated from the spec's wording of the estimator (§4.2): the number of
DISTINCT events satisfying at least one of the three conditions.  Kept
separate from `estimated_anomalies` (the source's sum of three counts)
so the two can be compared. -/
def spec_qualifying_count (b : List Event) : ℕ :=
  b.countP (fun e => sevP e || slowP b e || zP b e)

/-- Per-event label produced by the model (line 152 maps the model's
numeric 1 and −1 predictions to normal and anomaly). -/
inductive Label where
  | normal
  | anomaly
deriving DecidableEq, Repr

/-- The untyped Python exceptions that `detect_anomalies` can raise on
the degenerate batches the claims are about:
* `indexError`: line 104, `groupby('user').size().values[0]` on an empty
  batch (`IndexError: index 0 is out of bounds`), raised mid-derivation;
* `nonFiniteFeatures`: line 147, `model.fit` raises `ValueError` when the
  feature matrix contains NaN/inf. -/
inductive PipelineError where
  | indexError
  | nonFiniteFeatures
deriving DecidableEq, Repr

/-- Output of a successful `detect_anomalies` run: the derived feature
rows and the per-row labels. -/
structure AnalyzeResult where
  rows : List DerivedRow
  labels : List Label
deriving DecidableEq, Repr

/-- The full `detect_anomalies` pipeline (lines 35-154).  `forest` stands
for the third-party `IsolationForest(random_state=42)` fit-and-predict:
with its seed fixed by the source it is a pure function of the
contamination argument and the feature matrix.  The error checks appear
in source order: an empty batch raises at line 104 (before the
contamination division at line 141 can raise), and a non-finite feature
matrix makes `model.fit` raise at line 147. -/
def analyze (forest : ℚ → List DerivedRow → List Label) (b : List Event) :
    Except PipelineError AnalyzeResult :=
  let rows := derive b
  if b.length = 0 then .error .indexError
  else if rows.any featureHasNaN then .error .nonFiniteFeatures
  else .ok { rows := rows, labels := forest (estimated_contamination b) rows }

/-- The summary statistics the presentation layer computes from the
labelled frame (lines 160-162 of `generate_html_report`, identically
lines 303-305 at module level): `anomalies` is the subset of rows
labelled anomalous (line 289), the normal count is displayed as
`total - num_anomalies`, and the rate is `(num / total) * 100` — a
percentage; `none` models the `ZeroDivisionError` on an empty frame. -/
structure Summary where
  total : ℕ
  anomalousCount : ℕ
  normalShown : ℤ
  anomalyRate : Option ℚ
deriving DecidableEq, Repr

/-- Summary statistics computed from the label column. -/
def summaryOf (labels : List Label) : Summary where
  total := labels.length
  anomalousCount := (labels.filter (fun l => decide (l = Label.anomaly))).length
  normalShown := (labels.length : ℤ)
    - ((labels.filter (fun l => decide (l = Label.anomaly))).length : ℤ)
  anomalyRate := if labels.length = 0 then none
    else some (((labels.filter (fun l => decide (l = Label.anomaly))).length : ℚ)
      / (labels.length : ℚ) * 100)

/-- A concrete stand-in for the library model, used to instantiate
`analyze` in closed statements (every row normal). -/
def anyForest : ℚ → List DerivedRow → List Label :=
  fun _ rows => rows.map (fun _ => Label.normal)

/-- Row 0 of the mixed batch: parseable timestamp. -/
def evMix0 : Event :=
  { timestamp := some { hour := 10, minute := 30, dow := 2 },
    response_time := 100, status_code := 200, user := "a" }

/-- Row 1 of the mixed batch: unparseable timestamp (NaT). -/
def evMix1 : Event :=
  { timestamp := none, response_time := 200, status_code := 200, user := "b" }

/-- A mixed batch: row 0 has a parseable timestamp, row 1 does not. -/
def bMix : List Event := [evMix0, evMix1]

/-- A batch with a single row (and a parseable timestamp). -/
def bOne : List Event :=
  [ { timestamp := some { hour := 1, minute := 0, dow := 0 },
      response_time := 100, status_code := 200, user := "a" } ]

/-- Another single-row batch (timestamp absent). -/
def bSolo : List Event :=
  [ { timestamp := none, response_time := 250, status_code := 404, user := "c" } ]

/-- First row of the zero-variance batch. -/
def evFlat0 : Event :=
  { timestamp := none, response_time := 100, status_code := 200, user := "a" }

/-- A two-row batch with identical response times (zero batch variance). -/
def bFlat : List Event :=
  [ evFlat0,
    { timestamp := none, response_time := 100, status_code := 200, user := "b" } ]

/-- Row 2 of the no-timestamp batch. -/
def evNoTs2 : Event :=
  { timestamp := none, response_time := 120, status_code := 503, user := "b" }

/-- A batch with no parseable timestamp at all (three rows). -/
def bNoTs : List Event :=
  [ { timestamp := none, response_time := 100, status_code := 200, user := "a" },
    { timestamp := none, response_time := 150, status_code := 200, user := "a" },
    evNoTs2 ]

/-- A quiet row (fast success) for a given user. -/
def quiet (u : String) : Event :=
  { timestamp := none, response_time := 100, status_code := 200, user := u }

/-- An extreme outlier row: severe error status AND slow response. -/
def evOut : Event :=
  { timestamp := none, response_time := 7100, status_code := 500, user := "u7" }

/-- A seven-row batch whose last row is both a severe error (status 500)
and a slow response, so lines 135-137 count it twice: six quiet rows of
distinct users and one extreme outlier.  Batch mean is 1100 and sample
variance 7000000, so the outlier exceeds mean + 2·std. -/
def bDouble : List Event :=
  [ quiet "u1", quiet "u2", quiet "u3", quiet "u4", quiet "u5", quiet "u6", evOut ]

/-! ### Helper lemmas -/

/-- A positional lookup hit is a member of the indexed list. -/
lemma mem_withIdx_of_get (l : List Event) (k j : ℕ) (e : Event)
    (h : l.get? j = some e) : (k + j, e) ∈ withIdx k l := by
  induction l generalizing k j with
  | nil => simp at h
  | cons a t ih =>
    cases j with
    | zero =>
      rw [List.get?_cons_zero] at h
      cases h
      simp [withIdx]
    | succ j =>
      rw [List.get?_cons_succ] at h
      have hmem := ih (k + 1) j h
      have harith : k + (j + 1) = (k + 1) + j := by omega
      rw [harith]
      exact List.mem_cons_of_mem _ hmem

/-- Special case at offset zero. -/
lemma mem_withIdx_zero (l : List Event) (j : ℕ) (e : Event)
    (h : l.get? j = some e) : (j, e) ∈ withIdx 0 l := by
  have := mem_withIdx_of_get l 0 j e h
  simpa using this

/-- Sum of a constant list. -/
lemma sum_eq_of_forall_eq (l : List ℚ) (c : ℚ) (h : ∀ x ∈ l, x = c) :
    l.sum = c * (l.length : ℚ) := by
  induction l with
  | nil => simp
  | cons a t ih =>
    have ha := h a (List.mem_cons_self a t)
    have ht := ih (fun x hx => h x (List.mem_cons_of_mem a hx))
    rw [List.sum_cons, ha, ht, List.length_cons]
    push_cast
    ring

/-- The three per-condition counts of lines 135-139 sum to the total
number of condition hits over the rows. -/
lemma countP_three_eq_sum_condCount (b : List Event) (l : List Event) :
    l.countP sevP + l.countP (slowP b) + l.countP (zP b)
      = (l.map (condCount b)).sum := by
  induction l with
  | nil => simp
  | cons e t ih =>
    cases hs : sevP e <;> cases hsl : slowP b e <;> cases hz : zP b e <;>
      simp [List.countP_cons, condCount, hs, hsl, hz] <;> omega

/-- Counting rows satisfying at least one condition never exceeds the sum
of the three per-condition counts. -/
lemma countP_or_le_three (b : List Event) (l : List Event) :
    l.countP (fun e => sevP e || slowP b e || zP b e)
      ≤ l.countP sevP + l.countP (slowP b) + l.countP (zP b) := by
  induction l with
  | nil => simp
  | cons e t ih =>
    cases hs : sevP e <;> cases hsl : slowP b e <;> cases hz : zP b e <;>
      simp [List.countP_cons, hs, hsl, hz] <;> omega

/-- A user with a single row has filled user-std 0 (NaN filled by
line 78). -/
lemma user_std_sq_of_single (b : List Event) (u : String)
    (hu : (userRows b u).length = 1) : user_std_response_sq b u = 0 := by
  have hlen : (respTimes (userRows b u)).length = 1 := by
    simp [respTimes, hu]
  unfold user_std_response_sq sampleVar
  rw [hlen]
  simp

/-- A user with a single row has z-score 0 (the zero-std guard of
line 80). -/
lemma zscore_sq_of_single (b : List Event) (e : Event)
    (hu : (userRows b e.user).length = 1) : response_zscore_sq b e = 0 := by
  unfold response_zscore_sq
  rw [user_std_sq_of_single b e.user hu]
  simp

/-! ### Claim theorems -/

/-- C1, counterexample.  The claim says a row with an unparseable
timestamp gets the synthetic per-row fallback (hour = index mod 24)
independently of the other rows.  In the mixed batch `bMix`, row 1 has no
parseable timestamp but — because row 0 does — its `hour` is NaN
(`none`), not the synthetic `1 % 24 = 1`. -/
theorem c1_fallback_not_per_row :
    ((derive bMix).get? 1).map DerivedRow.hour = some none
    ∧ ((derive bMix).get? 1).map DerivedRow.hour ≠ some (some ((1 % 24 : ℕ) : ℚ)) := by
  exact ⟨rfl, by decide⟩

/-- C1, amended.  The synthetic time-feature fallback is batch-level, not
per-row: when NO row of the batch has a parseable timestamp, every row
gets hour = index mod 24 and minute_of_day = index mod 1440; but when at
least one row parses, a row whose own timestamp is absent or unparseable
gets NaN (undefined) time features instead of the synthetic fallback.
Parsing itself never throws (`errors="coerce"`). -/
theorem c1_time_fallback_batch_level (b : List Event) (i : ℕ) (e : Event)
    (he : b.get? i = some e) :
    (hasValidTimestamp b = false →
      (deriveRow b i e).hour = some ((i % 24 : ℕ) : ℚ)
      ∧ (deriveRow b i e).minute_of_day = some ((i % 1440 : ℕ) : ℚ))
    ∧ (hasValidTimestamp b = true → e.timestamp = none →
      (deriveRow b i e).hour = none ∧ (deriveRow b i e).minute_of_day = none) := by
  constructor
  · intro hv
    constructor <;> simp [deriveRow, rowHour, rowMinuteOfDay, hv]
  · intro hv ht
    constructor <;> simp [deriveRow, rowHour, rowMinuteOfDay, hv, ht]

/-- C1, witness for the amended theorem at the concrete no-timestamp
batch `bNoTs`, row 2. -/
theorem c1_time_fallback_batch_level_witness :
    bNoTs.get? 2 = some evNoTs2
    ∧ ((hasValidTimestamp bNoTs = false →
        (deriveRow bNoTs 2 evNoTs2).hour = some ((2 % 24 : ℕ) : ℚ)
        ∧ (deriveRow bNoTs 2 evNoTs2).minute_of_day = some ((2 % 1440 : ℕ) : ℚ))
      ∧ (hasValidTimestamp bNoTs = true → evNoTs2.timestamp = none →
        (deriveRow bNoTs 2 evNoTs2).hour = none
        ∧ (deriveRow bNoTs 2 evNoTs2).minute_of_day = none)) :=
  ⟨rfl, c1_time_fallback_batch_level bNoTs 2 evNoTs2 rfl⟩

/-- C8, confirmed.  A user with exactly one event in the batch gets
`user_std_response = 0` (the NaN sample std is filled with 0, encoded by
its square) and `response_zscore = 0` (the zero-std guard) for that
event. -/
theorem c8_single_event_user (b : List Event) (i : ℕ) (e : Event)
    (he : b.get? i = some e) (hu : (userRows b e.user).length = 1) :
    (deriveRow b i e).user_std_response_sq = 0
    ∧ (deriveRow b i e).response_zscore_sq = 0 :=
  ⟨user_std_sq_of_single b e.user hu, zscore_sq_of_single b e hu⟩

/-- C8, witness: in `bMix`, the user of row 0 has exactly one event. -/
theorem c8_single_event_user_witness :
    bMix.get? 0 = some evMix0
    ∧ (userRows bMix evMix0.user).length = 1
    ∧ ((deriveRow bMix 0 evMix0).user_std_response_sq = 0
      ∧ (deriveRow bMix 0 evMix0).response_zscore_sq = 0) :=
  ⟨rfl, by decide, c8_single_event_user bMix 0 evMix0 rfl (by decide)⟩

/-- A row with NaN hour gets `requests_in_hour = 0` (groupby drops NaN
keys, the merge misses, `fillna(0)` fills). -/
lemma requests_in_hour_of_none (b : List Event) (i : ℕ) (e : Event)
    (hh : rowHour b i e = none) : requests_in_hour b i e = 0 := by
  unfold requests_in_hour
  rw [hh]

/-- A batch row with a defined hour counts itself in its own
user-and-hour bucket. -/
lemma requests_in_hour_of_some (b : List Event) (i : ℕ) (e : Event) (h : ℚ)
    (he : b.get? i = some e) (hh : rowHour b i e = some h) :
    1 ≤ requests_in_hour b i e := by
  unfold requests_in_hour
  rw [hh]
  have hmem : (i, e) ∈ withIdx 0 b := mem_withIdx_zero b i e he
  have hmemf : (i, e) ∈ (withIdx 0 b).filter
      (fun p => decide (p.2.user = e.user ∧ rowHour b p.1 p.2 = some h)) :=
    List.mem_filter.mpr ⟨hmem, by simp [hh]⟩
  show (1 : ℚ) ≤ (((withIdx 0 b).filter
      (fun p => decide (p.2.user = e.user ∧ rowHour b p.1 p.2 = some h))).length : ℚ)
  exact_mod_cast List.length_pos_of_mem hmemf

/-- C10, counterexample.  The claim says `requests_in_hour ≥ 1` for every
row.  In the mixed batch `bMix`, row 1 has NaN `hour`, so it belongs to no
`(user, hour)` group, the left merge misses, and the `fillna(0)` leaves
`requests_in_hour = 0`. -/
theorem c10_nan_hour_zero :
    ((derive bMix).get? 1).map DerivedRow.requests_in_hour = some 0
    ∧ ¬ (1 ≤ (0 : ℚ)) := by
  exact ⟨rfl, by norm_num⟩

/-- C10, amended.  `requests_in_hour ≥ 1` holds exactly for the rows
whose `hour` is defined (every such row is a member of its own
user-and-hour bucket); a row with NaN `hour` instead gets
`requests_in_hour = 0` from the `fillna(0)`. -/
theorem c10_requests_in_hour_pos (b : List Event) (i : ℕ) (e : Event)
    (he : b.get? i = some e) :
    ((deriveRow b i e).hour ≠ none → 1 ≤ (deriveRow b i e).requests_in_hour)
    ∧ ((deriveRow b i e).hour = none → (deriveRow b i e).requests_in_hour = 0) := by
  constructor
  · intro hne
    rcases ho : rowHour b i e with _ | h
    · exact absurd ho hne
    · exact requests_in_hour_of_some b i e h he ho
  · intro h0
    exact requests_in_hour_of_none b i e h0

/-- C10, witness for the amended theorem at `bNoTs`, row 2 (defined hour,
count 1), using both branches of the conclusion. -/
theorem c10_requests_in_hour_pos_witness :
    bNoTs.get? 2 = some evNoTs2
    ∧ (((deriveRow bNoTs 2 evNoTs2).hour ≠ none →
        1 ≤ (deriveRow bNoTs 2 evNoTs2).requests_in_hour)
      ∧ ((deriveRow bNoTs 2 evNoTs2).hour = none →
        (deriveRow bNoTs 2 evNoTs2).requests_in_hour = 0)) :=
  ⟨rfl, c10_requests_in_hour_pos bNoTs 2 evNoTs2 rfl⟩

/-- C2, counterexample.  The claim says a batch with fewer than 2 rows
gets a deterministic all-Normal fallback.  On the single-row batch
`bOne` the pipeline instead fails: the sample std of one value is NaN,
so `global_response_zscore` is NaN and `model.fit` rejects the
non-finite feature matrix. -/
theorem c2_single_row_no_fallback :
    analyze anyForest bOne = Except.error PipelineError.nonFiniteFeatures := rfl

/-- C2, amended.  There is no small-batch fallback: every batch of
exactly one row makes `detect_anomalies` raise (for any fit-and-predict
function), because the row's `global_response_zscore` is NaN (the sample
std of a single value is NaN) and `model.fit` rejects non-finite
features.  An empty batch also fails, earlier (see C3). -/
theorem c2_single_row_fit_fails (forest : ℚ → List DerivedRow → List Label)
    (b : List Event) (hb : b.length = 1) :
    analyze forest b = Except.error PipelineError.nonFiniteFeatures := by
  cases b with
  | nil => simp at hb
  | cons e t =>
    cases t with
    | nil => rfl
    | cons f r => simp at hb

/-- C2, witness for the amended theorem at the concrete single-row batch
`bSolo`. -/
theorem c2_single_row_fit_fails_witness :
    bSolo.length = 1
    ∧ analyze anyForest bSolo = Except.error PipelineError.nonFiniteFeatures :=
  ⟨rfl, c2_single_row_fit_fails anyForest bSolo rfl⟩

/-- C3, counterexample.  The claim says `analyze([])` fails with a typed
`EmptyBatchError` detected before feature derivation.  No such error
class exists in the source: the empty batch raises an untyped
`IndexError` at line 104 (`groupby('user').size().values[0]`), i.e. in
the middle of feature derivation, after the time and per-user features
have already been computed. -/
theorem c3_empty_batch_index_error :
    analyze anyForest [] = Except.error PipelineError.indexError := rfl

/-- C3, amended.  On the empty batch `detect_anomalies` does fail, but
with the untyped mid-derivation `IndexError` of line 104 (for any
fit-and-predict function), not with a typed `EmptyBatchError` raised
before derivation begins. -/
theorem c3_empty_batch_untyped_error (forest : ℚ → List DerivedRow → List Label) :
    analyze forest [] = Except.error PipelineError.indexError := rfl

/-- C4, counterexample.  The claim says a zero-variance batch of size ≥ 2
has `global_response_zscore = 0` on every row.  On `bFlat` (two identical
response times) the std is 0.0 and the source computes `0.0/0.0 = NaN`:
the z-score is NaN (`none`), not 0 (`some 0` in the signed-square
encoding). -/
theorem c4_zero_variance_not_zero :
    ((derive bFlat).get? 0).map DerivedRow.global_response_zscore_ss = some none
    ∧ ((derive bFlat).get? 0).map DerivedRow.global_response_zscore_ss
        ≠ some (some 0) := by
  have h0 : global_response_zscore_ss bFlat evFlat0 = none := by
    norm_num [global_response_zscore_ss, global_var_response, sampleVar, respTimes,
      meanV, bFlat, evFlat0]
  have hget : (derive bFlat).get? 0 = some (deriveRow bFlat 0 evFlat0) := rfl
  rw [hget]
  constructor
  · simp [deriveRow, h0]
  · simp [deriveRow, h0]

/-- C4, amended.  There is no zero-variance guard at line 87: in every
batch of size ≥ 2 whose response times are all identical,
`global_response_zscore` is NaN (0.0/0.0) for every row, not 0. -/
theorem c4_zero_variance_nan (b : List Event) (h2 : 2 ≤ b.length)
    (hall : ∀ e1 ∈ b, ∀ e2 ∈ b, e1.response_time = e2.response_time)
    (i : ℕ) (e : Event) (he : b.get? i = some e) :
    (deriveRow b i e).global_response_zscore_ss = none := by
  show global_response_zscore_ss b e = none
  have hmem : e ∈ b := List.get?_mem he
  have hconst : ∀ x ∈ respTimes b, x = e.response_time := by
    intro x hx
    rcases List.mem_map.mp hx with ⟨e2, he2, rfl⟩
    exact hall e2 he2 e hmem
  have hlen : (respTimes b).length = b.length := List.length_map _ _
  have hn : ((b.length : ℚ)) ≠ 0 := by
    have : 0 < b.length := by omega
    exact_mod_cast Nat.pos_iff_ne_zero.mp this
  have hmean : meanV (respTimes b) = e.response_time := by
    unfold meanV
    rw [sum_eq_of_forall_eq _ _ hconst, hlen, mul_div_assoc, div_self hn, mul_one]
  have hvar : sampleVar (respTimes b) = some 0 := by
    unfold sampleVar
    rw [if_neg (by rw [hlen]; omega)]
    have hz : ∀ y ∈ (respTimes b).map (fun x => (x - meanV (respTimes b)) ^ 2), y = 0 := by
      intro y hy
      rcases List.mem_map.mp hy with ⟨x, hx, rfl⟩
      rw [hconst x hx, hmean]
      ring
    rw [sum_eq_of_forall_eq _ _ hz, zero_mul, zero_div]
  unfold global_response_zscore_ss global_var_response
  rw [hvar]
  simp

/-- C4, witness for the amended theorem at the concrete zero-variance
batch `bFlat`, row 0. -/
theorem c4_zero_variance_nan_witness :
    2 ≤ bFlat.length
    ∧ (∀ e1 ∈ bFlat, ∀ e2 ∈ bFlat, e1.response_time = e2.response_time)
    ∧ (deriveRow bFlat 0 evFlat0).global_response_zscore_ss = none :=
  ⟨by decide, by decide,
    c4_zero_variance_nan bFlat (by decide) (by decide) 0 evFlat0 rfl⟩

/-- C5, confirmed.  For every non-empty batch the contamination estimate
of line 141 lies in [0.05, 0.5]; with zero qualifying events it is
exactly 0.05 and with every event qualifying it is exactly 0.5. -/
theorem c5_contamination_bounds (b : List Event) (hb : 0 < b.length) :
    ((0.05 : ℚ) ≤ estimated_contamination b ∧ estimated_contamination b ≤ 0.5)
    ∧ (spec_qualifying_count b = 0 → estimated_contamination b = 0.05)
    ∧ (spec_qualifying_count b = b.length → estimated_contamination b = 0.5) := by
  refine ⟨⟨le_max_left _ _, max_le (by norm_num) (min_le_left _ _)⟩, ?_, ?_⟩
  · intro h0
    have hall : ∀ e ∈ b, ¬ ((sevP e || slowP b e || zP b e) = true) :=
      List.countP_eq_zero.mp h0
    have h1 : b.countP sevP = 0 :=
      List.countP_eq_zero.mpr (fun e he hc => hall e he (by simp [hc]))
    have h2 : b.countP (slowP b) = 0 :=
      List.countP_eq_zero.mpr (fun e he hc => hall e he (by simp [hc]))
    have h3 : b.countP (zP b) = 0 :=
      List.countP_eq_zero.mpr (fun e he hc => hall e he (by simp [hc]))
    have hz : estimated_anomalies b = 0 := by
      unfold estimated_anomalies
      omega
    unfold estimated_contamination
    rw [hz, Nat.cast_zero, zero_div]
    rw [min_eq_right (by norm_num : (0:ℚ) ≤ 0.5)]
    rw [max_eq_left (by norm_num : (0:ℚ) ≤ 0.05)]
  · intro hn
    have hle : b.length ≤ estimated_anomalies b := by
      have hcmp := countP_or_le_three b b
      unfold spec_qualifying_count at hn
      unfold estimated_anomalies
      omega
    have hpos : (0:ℚ) < (b.length : ℚ) := by exact_mod_cast hb
    have h1 : (1:ℚ) ≤ (estimated_anomalies b : ℚ) / (b.length : ℚ) := by
      rw [le_div_iff₀ hpos, one_mul]
      exact_mod_cast hle
    unfold estimated_contamination
    rw [min_eq_left (le_trans (by norm_num : (0.5:ℚ) ≤ 1) h1)]
    rw [max_eq_right (by norm_num : (0.05:ℚ) ≤ 0.5)]

/-- C5, witness at the concrete one-row batch `bSolo` (zero qualifying
events). -/
theorem c5_contamination_bounds_witness :
    0 < bSolo.length
    ∧ (((0.05 : ℚ) ≤ estimated_contamination bSolo
        ∧ estimated_contamination bSolo ≤ 0.5)
      ∧ (spec_qualifying_count bSolo = 0 → estimated_contamination bSolo = 0.05)
      ∧ (spec_qualifying_count bSolo = bSolo.length →
        estimated_contamination bSolo = 0.5)) :=
  ⟨by decide, c5_contamination_bounds bSolo (by decide)⟩

/-- C6, counterexample.  The claim says the pre-clamp estimator value is
the number of DISTINCT qualifying events over the batch size.  In
`bDouble` the outlier row is both a severe error and a slow response, so
lines 135-137 count it twice: the source's pre-clamp value is 2/7 while
the distinct count gives 1/7. -/
theorem c6_double_count :
    (estimated_anomalies bDouble : ℚ) / (bDouble.length : ℚ)
      ≠ (spec_qualifying_count bDouble : ℚ) / (bDouble.length : ℚ) := by
  have hresp : respTimes bDouble = [100, 100, 100, 100, 100, 100, 7100] := by
    simp [respTimes, bDouble, quiet, evOut]
  have hmean : global_mean_response bDouble = 1100 := by
    rw [global_mean_response, hresp]
    norm_num [meanV]
  have hvar : global_var_response bDouble = some 7000000 := by
    rw [global_var_response, hresp]
    norm_num [sampleVar, meanV]
  have hslowQ : ∀ u : String, slow_response bDouble (quiet u) = 0 := by
    intro u
    simp only [slow_response, hvar, hmean, quiet]
    norm_num
  have hslowO : slow_response bDouble evOut = 1 := by
    simp only [slow_response, hvar, hmean, evOut]
    norm_num
  have hsPQ : ∀ u : String, slowP bDouble (quiet u) = false := by
    intro u
    norm_num [slowP, hslowQ]
  have hsPO : slowP bDouble evOut = true := by
    norm_num [slowP, hslowO]
  have husers : ∀ e ∈ bDouble, (userRows bDouble e.user).length = 1 := by
    intro e he
    fin_cases he <;> simp [userRows, bDouble, quiet, evOut]
  have hzAll : ∀ e ∈ bDouble, zP bDouble e = false := by
    intro e he
    norm_num [zP, zscore_sq_of_single bDouble e (husers e he)]
  have hzc : bDouble.countP (zP bDouble) = 0 :=
    List.countP_eq_zero.mpr (fun e he => by simp [hzAll e he])
  have hsevc : bDouble.countP sevP = 1 := by
    norm_num [bDouble, sevP, quiet, evOut, List.countP_cons, List.countP_nil]
  have hslowc : bDouble.countP (slowP bDouble) = 1 := by
    have hstep : bDouble.countP (slowP bDouble)
        = List.countP (slowP bDouble)
          [quiet "u1", quiet "u2", quiet "u3", quiet "u4", quiet "u5",
            quiet "u6", evOut] := rfl
    rw [hstep]
    simp [List.countP_cons, List.countP_nil, hsPQ, hsPO]
  have h1 : estimated_anomalies bDouble = 2 := by
    unfold estimated_anomalies
    rw [hsevc, hslowc, hzc]
  have h2 : spec_qualifying_count bDouble = 1 := by
    unfold spec_qualifying_count
    have hcong : bDouble.countP (fun e => sevP e || slowP bDouble e || zP bDouble e)
        = bDouble.countP (fun e => sevP e || slowP bDouble e) :=
      List.countP_congr (fun e he => by simp [hzAll e he])
    rw [hcong]
    have hstep : List.countP (fun e => sevP e || slowP bDouble e) bDouble
        = List.countP (fun e => sevP e || slowP bDouble e)
          [quiet "u1", quiet "u2", quiet "u3", quiet "u4", quiet "u5",
            quiet "u6", evOut] := rfl
    rw [hstep]
    simp only [List.countP_cons, List.countP_nil, hsPQ, hsPO, Bool.or_false,
      Bool.or_true]
    norm_num [sevP, quiet, evOut]
  have hlen7 : ((bDouble.length : ℕ) : ℚ) = 7 := by
    simp [bDouble]
  rw [h1, h2, hlen7]
  norm_num

/-- C6, amended.  The pre-clamp value of line 141 is the SUM of the three
per-condition counts over the batch size: each event contributes once per
condition it satisfies (so up to three times), and the distinct-event
count of the claim is only a lower bound of the numerator. -/
theorem c6_sum_of_counts (b : List Event) (hb : 0 < b.length) :
    (estimated_anomalies b : ℚ) / (b.length : ℚ)
      = (((b.map (condCount b)).sum : ℕ) : ℚ) / (b.length : ℚ)
    ∧ spec_qualifying_count b ≤ estimated_anomalies b := by
  constructor
  · have hsum : estimated_anomalies b = (b.map (condCount b)).sum := by
      unfold estimated_anomalies
      exact countP_three_eq_sum_condCount b b
    rw [hsum]
  · unfold spec_qualifying_count estimated_anomalies
    exact countP_or_le_three b b

/-- C6, witness for the amended theorem at the concrete batch
`bDouble`. -/
theorem c6_sum_of_counts_witness :
    0 < bDouble.length
    ∧ ((estimated_anomalies bDouble : ℚ) / (bDouble.length : ℚ)
        = (((bDouble.map (condCount bDouble)).sum : ℕ) : ℚ) / (bDouble.length : ℚ)
      ∧ spec_qualifying_count bDouble ≤ estimated_anomalies bDouble) :=
  ⟨by decide, c6_sum_of_counts bDouble (by decide)⟩

/-- C7, confirmed.  `detect_anomalies` is a pure function of the batch:
the features and the contamination passed to the model are computed
deterministically, and the model itself (`IsolationForest` with the fixed
`random_state=42`) is a pure function of those inputs, so two runs on the
identical batch give identical labels and an identical anomaly rate,
whichever pure fit-and-predict function the library provides. -/
theorem c7_deterministic (forest : ℚ → List DerivedRow → List Label)
    (b1 b2 : List Event) (h : b1 = b2) :
    Except.map AnalyzeResult.labels (analyze forest b1)
      = Except.map AnalyzeResult.labels (analyze forest b2)
    ∧ Except.map (fun r => (summaryOf r.labels).anomalyRate) (analyze forest b1)
      = Except.map (fun r => (summaryOf r.labels).anomalyRate) (analyze forest b2) := by
  subst h
  exact ⟨rfl, rfl⟩

/-- C7, witness at the concrete batch `bNoTs`. -/
theorem c7_deterministic_witness :
    bNoTs = bNoTs
    ∧ (Except.map AnalyzeResult.labels (analyze anyForest bNoTs)
        = Except.map AnalyzeResult.labels (analyze anyForest bNoTs)
      ∧ Except.map (fun r => (summaryOf r.labels).anomalyRate) (analyze anyForest bNoTs)
        = Except.map (fun r => (summaryOf r.labels).anomalyRate)
          (analyze anyForest bNoTs)) :=
  ⟨rfl, c7_deterministic anyForest bNoTs bNoTs rfl⟩

/-- C9, counterexample.  The claim says `anomaly_rate` equals
`anomalous_count / total` (a fraction).  The source computes
`(num_anomalies / total) * 100`: on one anomaly out of two rows the
stored rate is 50, not 1/2. -/
theorem c9_rate_percentage :
    (summaryOf [Label.anomaly, Label.normal]).anomalyRate = some 50
    ∧ (summaryOf [Label.anomaly, Label.normal]).anomalyRate
      ≠ some (((summaryOf [Label.anomaly, Label.normal]).anomalousCount : ℚ)
        / ((summaryOf [Label.anomaly, Label.normal]).total : ℚ)) := by
  have hflt : (([Label.normal] : List Label).filter
      (fun l => decide (l = Label.anomaly))).length = 0 := by decide
  constructor
  · norm_num [summaryOf, hflt]
  · norm_num [summaryOf, hflt]

/-- C9, amended.  For every non-empty label column the summary satisfies
`anomalous_count + normal_count = total` (the normal count is displayed
as `total − anomalous`), and `anomaly_rate = (anomalous_count / total) ·
100` — a percentage, not a fraction; the division is unguarded in the
source and is reached only with `total > 0`. -/
theorem c9_summary_identities (labels : List Label) (h : 0 < labels.length) :
    ((summaryOf labels).anomalousCount : ℤ) + (summaryOf labels).normalShown
      = ((summaryOf labels).total : ℤ)
    ∧ (summaryOf labels).anomalyRate
      = some (((summaryOf labels).anomalousCount : ℚ)
        / ((summaryOf labels).total : ℚ) * 100) := by
  have hne : labels.length ≠ 0 := Nat.pos_iff_ne_zero.mp h
  constructor
  · simp [summaryOf]
  · simp [summaryOf, hne]

/-- C9, witness for the amended theorem at a concrete two-label column. -/
theorem c9_summary_identities_witness :
    0 < ([Label.anomaly, Label.normal] : List Label).length
    ∧ ((((summaryOf [Label.anomaly, Label.normal]).anomalousCount : ℤ)
        + (summaryOf [Label.anomaly, Label.normal]).normalShown
        = ((summaryOf [Label.anomaly, Label.normal]).total : ℤ))
      ∧ (summaryOf [Label.anomaly, Label.normal]).anomalyRate
        = some (((summaryOf [Label.anomaly, Label.normal]).anomalousCount : ℚ)
          / ((summaryOf [Label.anomaly, Label.normal]).total : ℚ) * 100)) :=
  ⟨by decide, c9_summary_identities [Label.anomaly, Label.normal] (by decide)⟩

end LogMonitor
